import Mathlib

/-!
Shallow embedding of the home-internet monitoring server
(`src/dist/server/index.js`) in Lean 4, for checking the repository's
natural-language specification against the code.

Modelling conventions:
* JavaScript numbers are idealised as rationals (`ℚ`); timestamps are
  integers (seconds); SQL `datetime` comparisons become integer comparisons.
* The SQLite database is a record of lists, one per table; queries are
  translated to filters/sorts/folds over those lists.
* JavaScript truthiness on numeric/nullable fields is modelled explicitly
  (an `Option ℚ` threshold is truthy when present and nonzero).
* `SQRT` (used only to produce stored standard deviations) is passed as an
  explicit function parameter `sqrtF : ℚ → ℚ`, since its exact floating
  value never matters to the properties below.
* `Number.prototype.toFixed` is modelled on rationals (`jsToFixed`),
  following the ECMA definition: for nonnegative x pick the integer n
  minimising |n / 10^f - x| (ties upward), negatives are formatted by
  negating first.
-/

/-- ECMA-style floor on rationals via Euclidean division (`den > 0`). -/
def ratFloor (q : ℚ) : ℤ := Int.ediv q.num q.den

/-- Left-pad a string with zeros up to length `n`. -/
def zeroPad (s : String) (n : Nat) : String :=
  String.mk (List.replicate (n - s.length) '0') ++ s

/-- `toFixed` for a nonnegative rational: round `q * 10^f` to the nearest
integer (ties upward) and render with `f` fractional digits. -/
def jsToFixedNonneg (q : ℚ) (f : Nat) : String :=
  let n : ℤ := ratFloor (q * (10 : ℚ) ^ f + 1/2)
  let m : Nat := n.toNat
  let ip : Nat := m / 10 ^ f
  let fp : Nat := m % 10 ^ f
  if f = 0 then toString ip
  else toString ip ++ "." ++ zeroPad (toString fp) f

/-- Model of JavaScript `Number.prototype.toFixed` on rationals. -/
def jsToFixed (q : ℚ) (f : Nat) : String :=
  if q < 0 then "-" ++ jsToFixedNonneg (-q) f else jsToFixedNonneg q f

/-- SQL `AVG` over a list of rationals (callers guard nonemptiness;
`x / 0 = 0` on `ℚ` is harmless). -/
def listAvg (l : List ℚ) : ℚ := l.sum / l.length

/-- Truthiness of a nullable numeric column / field: JavaScript treats
`null`/`undefined` and `0` as falsy. -/
def truthyQ : Option ℚ → Bool
  | none => false
  | some q => decide (q ≠ 0)

/-- One stored row of the `speed_results` table (the columns the verified
routines read; all are written by ingestion with the defaults of
`app.post('/api/results')`). -/
structure SpeedRow where
  id : Nat
  device_id : String
  timestamp_utc : ℤ
  status : String
  download_mbps : ℚ
  upload_mbps : ℚ
  jitter_ms : ℚ
  packet_loss_pct : ℚ
  input_error_rate : ℚ
  output_error_rate : ℚ
  rssi_dbm : ℚ
  mcs_index : ℤ
  bssid_changed : ℤ
deriving DecidableEq, Repr

/-- One row of `device_baselines` (primary key `device_id`). -/
structure BaselineRow where
  device_id : String
  baseline_download : ℚ
  baseline_upload : ℚ
  baseline_jitter : ℚ
  stddev_download : ℚ
  stddev_upload : ℚ
  stddev_jitter : ℚ
  sample_count : Nat
deriving DecidableEq, Repr

/-- One row of `alert_configs`. -/
structure AlertConfig where
  id : Nat
  enabled : Bool
  type : String
  webhook_url : String
  threshold_download_mbps : Option ℚ
  threshold_jitter_ms : Option ℚ
  threshold_packet_loss_pct : Option ℚ
deriving DecidableEq, Repr

/-- One row of `alert_history` (message text elided: no verified property
reads it back). -/
structure HistRow where
  alert_config_id : Nat
  device_id : String
  alert_type : String
  severity : String
deriving DecidableEq, Repr

/-- One row of `connection_events`. -/
structure ConnEvent where
  device_id : String
  event_type : String
  timestamp_utc : ℤ
deriving DecidableEq, Repr

/-- The SQLite database. -/
structure DB where
  speed_results : List SpeedRow
  device_baselines : List BaselineRow
  alert_configs : List AlertConfig
  alert_history : List HistRow
  connection_events : List ConnEvent
deriving DecidableEq, Repr

/-- The raw JSON body of a `POST /api/results` request (the fields the
verified routines read; `none` models an absent JSON field where the code
distinguishes it, other absent numeric fields are folded to their `|| 0`
ingestion default, which is also how `checkAlerts` reads them). -/
structure Payload where
  device_id : Option String
  status : Option String
  timestamp_utc : Option ℤ
  download_mbps : ℚ
  upload_mbps : ℚ
  jitter_ms : ℚ
  packet_loss_pct : ℚ
  input_error_rate : ℚ
  output_error_rate : ℚ
  rssi_dbm : ℚ
  mcs_index : Option ℤ
  tcp_retransmits : ℚ
  bssid_changed : Bool
deriving DecidableEq, Repr

/-- The device id of a payload (callers run after the `!data.device_id`
validation, so the default is never observable). -/
def payloadDev (p : Payload) : String := p.device_id.getD ""

/-- JS truthiness of the `device_id` field (`undefined` and `""` falsy). -/
def devTruthy (p : Payload) : Prop :=
  match p.device_id with
  | none => False
  | some s => s ≠ ""

instance (p : Payload) : Decidable (devTruthy p) := by
  unfold devTruthy; exact match p.device_id with
  | none => inferInstanceAs (Decidable False)
  | some s => inferInstanceAs (Decidable (s ≠ ""))

/-- `SELECT * FROM device_baselines WHERE device_id = ?` + `.get`
(first matching row). -/
def getBaseline (db : DB) (dev : String) : Option BaselineRow :=
  db.device_baselines.find? (fun b => b.device_id == dev)

/-- `INSERT OR REPLACE INTO device_baselines` with primary key
`device_id`. -/
def upsertBaseline (bs : List BaselineRow) (b : BaselineRow) : List BaselineRow :=
  if bs.any (fun x => x.device_id == b.device_id) then
    bs.map (fun x => if x.device_id == b.device_id then b else x)
  else bs ++ [b]

/-- Sort key for `ORDER BY timestamp_utc DESC`. -/
def tsGe (a b : SpeedRow) : Prop := b.timestamp_utc ≤ a.timestamp_utc

instance : DecidableRel tsGe := fun a b =>
  inferInstanceAs (Decidable (b.timestamp_utc ≤ a.timestamp_utc))

instance : IsTotal SpeedRow tsGe :=
  ⟨fun a b => (le_total b.timestamp_utc a.timestamp_utc)⟩

instance : IsTrans SpeedRow tsGe :=
  ⟨fun _ _ _ hab hbc => le_trans hbc hab⟩

/-- `ORDER BY timestamp_utc DESC` on speed rows. -/
def sortRows (l : List SpeedRow) : List SpeedRow := List.insertionSort tsGe l

/-- `WHERE device_id = ? AND status = 'success'`. -/
def successRows (db : DB) (dev : String) : List SpeedRow :=
  db.speed_results.filter (fun r => r.device_id == dev && r.status == "success")

/-- The inner subquery of `updateBaseline`: the most recent 100 successful
rows for the device. -/
def recent100 (db : DB) (dev : String) : List SpeedRow :=
  (sortRows (successRows db dev)).take 100

/-- `updateBaseline(deviceId)` (index.js:1017-1063): recompute mean and
population standard deviation of download/upload/jitter over the most
recent 100 successful rows; no-op below 5 qualifying rows; upsert the
baseline row.  `sqrtF` stands for SQLite's `SQRT`. -/
def updateBaseline (sqrtF : ℚ → ℚ) (db : DB) (dev : String) : DB :=
  let recs := recent100 db dev
  if recs.length < 5 then db
  else
    let avgD := listAvg (recs.map (fun r => r.download_mbps))
    let avgU := listAvg (recs.map (fun r => r.upload_mbps))
    let avgJ := listAvg (recs.map (fun r => r.jitter_ms))
    let sdD := sqrtF (listAvg (recs.map (fun r => (r.download_mbps - avgD) * (r.download_mbps - avgD))))
    let sdU := sqrtF (listAvg (recs.map (fun r => (r.upload_mbps - avgU) * (r.upload_mbps - avgU))))
    let sdJ := sqrtF (listAvg (recs.map (fun r => (r.jitter_ms - avgJ) * (r.jitter_ms - avgJ))))
    let row : BaselineRow :=
      { device_id := dev,
        baseline_download := avgD,
        baseline_upload := avgU,
        baseline_jitter := avgJ,
        stddev_download := sdD,
        stddev_upload := sdU,
        stddev_jitter := sdJ,
        sample_count := recs.length }
    { db with device_baselines := upsertBaseline db.device_baselines row }

/-- One entry of `detectAnomaly`'s result list. -/
structure Anomaly where
  type : String
  zscore : String
  expected : String
  actual : ℚ
deriving DecidableEq, Repr

/-- `detectAnomaly(result)` (index.js:976-1014).  Returns the anomaly list
(`none` for JS `null`) and the database after the possible self-seeding
`updateBaseline` call. -/
def detectAnomaly (sqrtF : ℚ → ℚ) (db : DB) (p : Payload) :
    Option (List Anomaly) × DB :=
  match getBaseline db (payloadDev p) with
  | none => (none, updateBaseline sqrtF db (payloadDev p))
  | some b =>
    if b.sample_count < 10 then (none, updateBaseline sqrtF db (payloadDev p))
    else
      let dz := (p.download_mbps - b.baseline_download) / b.stddev_download
      let a1 : List Anomaly :=
        if 0 < b.stddev_download ∧ dz < -2 then
          [{ type := "low_download", zscore := jsToFixed dz 2,
             expected := jsToFixed b.baseline_download 1,
             actual := p.download_mbps }]
        else []
      let jz := (p.jitter_ms - b.baseline_jitter) / b.stddev_jitter
      let a2 : List Anomaly :=
        if 0 < b.stddev_jitter ∧ 2 < jz then
          [{ type := "high_jitter", zscore := jsToFixed jz 2,
             expected := jsToFixed b.baseline_jitter 1,
             actual := p.jitter_ms }]
        else []
      let l := a1 ++ a2
      (if l.isEmpty then none else some l, db)

unseal Rat.add Rat.mul Rat.sub Rat.inv Rat.ofScientific Nat.gcd in
example : jsToFixed (-3) 2 = "-3.00" := by decide

unseal Rat.add Rat.mul Rat.sub Rat.inv Rat.ofScientific Nat.gcd in
example : jsToFixed 100 1 = "100.0" := by decide

/-- An alert produced for one config by `checkAlerts`' rule cascade: the
final values of the mutable `alertType`/`severity` locals (`triggered` is
modelled by `Option`). -/
structure Alert where
  alert_type : String
  severity : String
deriving DecidableEq, Repr

/-- `COUNT(*) FROM connection_events WHERE device_id = ? AND event_type =
'roam' AND timestamp_utc > datetime('now', '-1 hour')`. -/
def roamCountLastHour (db : DB) (now : ℤ) (dev : String) : Nat :=
  (db.connection_events.filter (fun e =>
    e.device_id == dev && e.event_type == "roam" &&
      decide (now - 3600 < e.timestamp_utc))).length

/-- Same count for `event_type = 'disconnect'`. -/
def disconnectCountLastHour (db : DB) (now : ℤ) (dev : String) : Nat :=
  (db.connection_events.filter (fun e =>
    e.device_id == dev && e.event_type == "disconnect" &&
      decide (now - 3600 < e.timestamp_utc))).length

/-- Rule 1 (index.js:1121-1126): download below configured threshold. -/
def matchDownload (cfg : AlertConfig) (p : Payload) : Option Alert :=
  if truthyQ cfg.threshold_download_mbps ∧
      p.download_mbps < cfg.threshold_download_mbps.getD 0 then
    some { alert_type := "Low Download Speed",
           severity :=
             if p.download_mbps < cfg.threshold_download_mbps.getD 0 / 2
             then "critical" else "warning" }
  else none

/-- Rule 2 (index.js:1129-1134): jitter above configured threshold. -/
def matchJitter (cfg : AlertConfig) (p : Payload) : Option Alert :=
  if truthyQ cfg.threshold_jitter_ms ∧
      cfg.threshold_jitter_ms.getD 0 < p.jitter_ms then
    some { alert_type := "High Jitter",
           severity :=
             if cfg.threshold_jitter_ms.getD 0 * 2 < p.jitter_ms
             then "critical" else "warning" }
  else none

/-- Rule 3 (index.js:1137-1142): packet loss above configured threshold. -/
def matchPacketLoss (cfg : AlertConfig) (p : Payload) : Option Alert :=
  if truthyQ cfg.threshold_packet_loss_pct ∧
      cfg.threshold_packet_loss_pct.getD 0 < p.packet_loss_pct then
    some { alert_type := "High Packet Loss", severity := "critical" }
  else none

/-- The combined error rate of index.js:1147:
`Math.max(result.input_error_rate || 0, result.output_error_rate || 0)`. -/
def errorRate (p : Payload) : ℚ := max p.input_error_rate p.output_error_rate

/-- Rule 4 (index.js:1148-1153): error rate above 1%. -/
def matchErrorRate (p : Payload) : Option Alert :=
  if 1 < errorRate p then
    some { alert_type := "High Error Rate",
           severity := if 5 < errorRate p then "critical" else "warning" }
  else none

/-- Rule 5 (index.js:1156-1169): excessive roaming. -/
def matchRoaming (db : DB) (now : ℤ) (p : Payload) : Option Alert :=
  if p.bssid_changed ∧ 5 < roamCountLastHour db now (payloadDev p) then
    some { alert_type := "Excessive Roaming",
           severity :=
             if 10 < roamCountLastHour db now (payloadDev p)
             then "critical" else "warning" }
  else none

/-- `hasPoorMCS` of index.js:1174: `mcs_index !== undefined &&
mcs_index >= 0 && mcs_index < 5`. -/
def mcsPoor : Option ℤ → Prop
  | some m => 0 ≤ m ∧ m < 5
  | none => False

instance : (o : Option ℤ) → Decidable (mcsPoor o)
  | some m => inferInstanceAs (Decidable (0 ≤ m ∧ m < 5))
  | none => inferInstanceAs (Decidable False)

/-- Rule 6 (index.js:1173-1184): hidden congestion (good RSSI, poor MCS,
plus high retransmits or slow download).  `rssi_dbm` and
`tcp_retransmits` are tested for JS truthiness (nonzero) first, exactly
as `result.rssi_dbm && ...` / `result.tcp_retransmits && ...` do. -/
def matchCongestion (p : Payload) : Option Alert :=
  if p.rssi_dbm ≠ 0 ∧ -60 < p.rssi_dbm ∧ mcsPoor p.mcs_index ∧
      ((p.tcp_retransmits ≠ 0 ∧ 100 < p.tcp_retransmits) ∨ p.download_mbps < 50) then
    some { alert_type := "Hidden Congestion", severity := "critical" }
  else none

/-- Rule 7 (index.js:1187-1200): frequent disconnects. -/
def matchDisconnects (db : DB) (now : ℤ) (p : Payload) : Option Alert :=
  if 3 < disconnectCountLastHour db now (payloadDev p) then
    some { alert_type := "Frequent Disconnects", severity := "critical" }
  else none

/-- Checks 1-3 of `checkAlerts` carry no `!triggered` guard: a later match
overwrites the `alertType`/`message`/`severity` set by an earlier one. -/
def overwrite (o prior : Option Alert) : Option Alert :=
  match o with
  | some a => some a
  | none => prior

/-- Checks 4-7 of `checkAlerts` are guarded by `!triggered`: they are
skipped once an earlier rule has triggered. -/
def guarded (prior o : Option Alert) : Option Alert :=
  match prior with
  | some a => some a
  | none => o

/-- The rule cascade of `checkAlerts` for one config (index.js:1114-1200):
checks 1-3 run unguarded (each overwrites the previous result), checks
4-7 run only while nothing has triggered yet. -/
def ruleEval (cfg : AlertConfig) (db : DB) (now : ℤ) (p : Payload) : Option Alert :=
  guarded (guarded (guarded (guarded
    (overwrite (matchPacketLoss cfg p)
      (overwrite (matchJitter cfg p) (matchDownload cfg p)))
    (matchErrorRate p)) (matchRoaming db now p)) (matchCongestion p))
    (matchDisconnects db now p)

/-- First-match-wins over a priority list of rule results. -/
def firstSome : List (Option Alert) → Option Alert
  | [] => none
  | o :: rest =>
    match o with
    | some a => some a
    | none => firstSome rest

/-- First-match-wins in the priority order the spec claims
(download, jitter, packet loss, link errors, roaming, congestion,
disconnects).  This is the specification-side evaluator used to compare
against the code. -/
def firstMatchClaimed (cfg : AlertConfig) (db : DB) (now : ℤ) (p : Payload) :
    Option Alert :=
  firstSome [matchDownload cfg p, matchJitter cfg p, matchPacketLoss cfg p,
    matchErrorRate p, matchRoaming db now p, matchCongestion p,
    matchDisconnects db now p]

/-- First-match-wins in the priority order the code actually implements:
packet loss, jitter, download (the unguarded checks 1-3 in reverse),
then link errors, roaming, congestion, disconnects. -/
def firstMatchCode (cfg : AlertConfig) (db : DB) (now : ℤ) (p : Payload) :
    Option Alert :=
  firstSome [matchPacketLoss cfg p, matchJitter cfg p, matchDownload cfg p,
    matchErrorRate p, matchRoaming db now p, matchCongestion p,
    matchDisconnects db now p]

/-- `sendSlackAlert` (index.js:1066-1108): wraps the webhook `fetch` in
`try`/`catch`, returns `true` on success and `false` on an exception, so
it never raises past its caller.  The fetch outcome is the oracle
argument. -/
def sendSlackAlert (fetchOk : Bool) : Bool := fetchOk

/-- Observable side effects of one `checkAlerts` run, in program order. -/
inductive Effect where
  | insertHistory (row : HistRow)
  | dispatch (configId : Nat) (alert_type : String) (ok : Bool)
deriving DecidableEq, Repr

/-- The alert-history row written by index.js:1204-1207. -/
def histRowOf (cfg : AlertConfig) (dev : String) (a : Alert) : HistRow :=
  { alert_config_id := cfg.id, device_id := dev,
    alert_type := a.alert_type, severity := a.severity }

/-- Running state of `checkAlerts`: the database, the effect trace so
far, and the number of dispatch attempts made (indexes the fetch
oracle). -/
structure AlertSt where
  db : DB
  trace : List Effect
  k : Nat
deriving Repr

/-- One iteration of the per-config loop of `checkAlerts`
(index.js:1114-1214): evaluate the rule cascade; if a rule triggered,
insert the history row and then, for `slack` configs, attempt dispatch. -/
def alertStep (fetch : Nat → Bool) (now : ℤ) (p : Payload)
    (st : AlertSt) (cfg : AlertConfig) : AlertSt :=
  match ruleEval cfg st.db now p with
  | none => st
  | some a =>
    let row := histRowOf cfg (payloadDev p) a
    let db' := { st.db with alert_history := st.db.alert_history ++ [row] }
    let tr := st.trace ++ [Effect.insertHistory row]
    if cfg.type == "slack" then
      { db := db',
        trace := tr ++ [Effect.dispatch cfg.id a.alert_type (sendSlackAlert (fetch st.k))],
        k := st.k + 1 }
    else { db := db', trace := tr, k := st.k }

/-- One iteration of the anomaly-notification loop of `checkAlerts`
(index.js:1219-1231): every enabled config gets an `Anomaly Detected`
history row, then a dispatch attempt for `slack` configs. -/
def anomalyStep (fetch : Nat → Bool) (p : Payload)
    (st : AlertSt) (cfg : AlertConfig) : AlertSt :=
  let row : HistRow :=
    { alert_config_id := cfg.id, device_id := payloadDev p,
      alert_type := "Anomaly Detected", severity := "warning" }
  let db' := { st.db with alert_history := st.db.alert_history ++ [row] }
  let tr := st.trace ++ [Effect.insertHistory row]
  if cfg.type == "slack" then
    { db := db',
      trace := tr ++ [Effect.dispatch cfg.id "Anomaly Detected" (sendSlackAlert (fetch st.k))],
      k := st.k + 1 }
  else { db := db', trace := tr, k := st.k }

/-- `checkAlerts(result)` (index.js:1111-1232): run the rule cascade for
every enabled config, then evaluate `detectAnomaly` and, when it reports
anomalies, notify every enabled config. -/
def checkAlerts (sqrtF : ℚ → ℚ) (fetch : Nat → Bool) (now : ℤ)
    (db : DB) (p : Payload) : AlertSt :=
  let configs := db.alert_configs.filter (fun c => c.enabled)
  let st1 := configs.foldl (alertStep fetch now p) { db := db, trace := [], k := 0 }
  let ad := detectAnomaly sqrtF st1.db p
  let st2 : AlertSt := { st1 with db := ad.2 }
  match ad.1 with
  | some l =>
    if l.isEmpty then st2
    else (configs.filter (fun c => c.enabled)).foldl (anomalyStep fetch p) st2
  | none => st2

/-- Response of `POST /api/results`: `{success:true, id}` or the 400
`device_id is required` error.  (The 500 storage-failure branch is dead
in this model: the modelled insert cannot throw.) -/
inductive Resp where
  | ok (id : Nat)
  | badRequest
deriving DecidableEq, Repr

/-- Milestones of one `POST /api/results` request, in the order the
handler reaches them.  `alertsInvoked` marks the point where the handler
calls the un-awaited async `checkAlerts` (index.js:318); its effects are
applied there in this sequential model. -/
inductive PostEv where
  | stored
  | roamEvent
  | alertsInvoked
  | baselineUpdated
  | responded
deriving DecidableEq, Repr

/-- JS `a || d` for nullable strings (empty string is falsy). -/
def strOr (o : Option String) (d : String) : String :=
  match o with
  | none => d
  | some s => if s == "" then d else s

/-- The `speed_results` row written by index.js:264-306 (with the
handler's defaults). -/
def mkStoredRow (data : Payload) (now : ℤ) (id : Nat) : SpeedRow :=
  { id := id,
    device_id := payloadDev data,
    timestamp_utc := data.timestamp_utc.getD now,
    status := strOr data.status "success",
    download_mbps := data.download_mbps,
    upload_mbps := data.upload_mbps,
    jitter_ms := data.jitter_ms,
    packet_loss_pct := data.packet_loss_pct,
    input_error_rate := data.input_error_rate,
    output_error_rate := data.output_error_rate,
    rssi_dbm := data.rssi_dbm,
    mcs_index := data.mcs_index.getD (-1),
    bssid_changed := if data.bssid_changed then 1 else 0 }

/-- Result of one `POST /api/results` request. -/
structure PostOut where
  resp : Resp
  db : DB
  trace : List PostEv
deriving Repr

/-- `app.post('/api/results')` (index.js:232-331): validate `device_id`,
insert the row, record a roam `connection_events` row when
`bssid_changed`, invoke `checkAlerts` (not awaited), run
`updateBaseline` synchronously on every 10th stored record of the
device, and only then send the JSON response. -/
def postResults (sqrtF : ℚ → ℚ) (fetch : Nat → Bool) (now : ℤ)
    (db : DB) (data : Payload) : PostOut :=
  if devTruthy data then
    let rid := db.speed_results.length + 1
    let row := mkStoredRow data now rid
    let db1 := { db with speed_results := db.speed_results ++ [row] }
    let roamed : Bool := data.bssid_changed
    let db2 :=
      if roamed then
        { db1 with connection_events := db1.connection_events ++
            [{ device_id := payloadDev data, event_type := "roam",
               timestamp_utc := data.timestamp_utc.getD now }] }
      else db1
    let ev2 : List PostEv := if roamed then [PostEv.roamEvent] else []
    let st := checkAlerts sqrtF fetch now db2 data
    let cnt := (st.db.speed_results.filter
      (fun r => r.device_id == payloadDev data)).length
    let maintain : Bool := cnt % 10 == 0
    let db4 := if maintain then updateBaseline sqrtF st.db (payloadDev data) else st.db
    let ev4 : List PostEv := if maintain then [PostEv.baselineUpdated] else []
    { resp := Resp.ok rid, db := db4,
      trace := [PostEv.stored] ++ ev2 ++ [PostEv.alertsInvoked] ++ ev4 ++
        [PostEv.responded] }
  else
    { resp := Resp.badRequest, db := db, trace := [PostEv.responded] }

/-- The diagnosis query of index.js:2000-2006: successful rows of the
trailing 7 days, newest first, at most 50. -/
def qualifying (db : DB) (now : ℤ) (dev : String) : List SpeedRow :=
  db.speed_results.filter (fun r =>
    r.device_id == dev && r.status == "success" &&
      decide (now - 604800 < r.timestamp_utc))

/-- `recentData` of the diagnose endpoint: `ORDER BY timestamp_utc DESC
LIMIT 50` applied to the qualifying rows. -/
def recentData (db : DB) (now : ℤ) (dev : String) : List SpeedRow :=
  (sortRows (qualifying db now dev)).take 50

/-- The `avg` helper of index.js:2017. -/
def avgOf (l : List SpeedRow) (f : SpeedRow → ℚ) : ℚ := listAvg (l.map f)

/-- One entry of the diagnose endpoint's `issues` array (the fields the
verified properties read). -/
structure Issue where
  factor : String
  score : ℚ
deriving DecidableEq, Repr

/-- Sort key of `issues.sort((a, b) => b.score - a.score)`. -/
def issueGe (a b : Issue) : Prop := b.score ≤ a.score

instance : DecidableRel issueGe := fun a b =>
  inferInstanceAs (Decidable (b.score ≤ a.score))

instance : IsTotal Issue issueGe := ⟨fun a b => le_total b.score a.score⟩

instance : IsTrans Issue issueGe := ⟨fun _ _ _ hab hbc => le_trans hbc hab⟩

/-- Descending-score sort of the issues array. -/
def sortIssues (l : List Issue) : List Issue := List.insertionSort issueGe l

/-- The seven issue factors of the diagnose endpoint
(index.js:2019-2112), computed from the selected recent rows. -/
def issuesOf (recent : List SpeedRow) : List Issue :=
  let avgRSSI := avgOf recent (fun r => r.rssi_dbm)
  let avgDownload := avgOf recent (fun r => r.download_mbps)
  let avgJitter := avgOf recent (fun r => r.jitter_ms)
  let avgPacketLoss := avgOf recent (fun r => r.packet_loss_pct)
  let avgInputErrorRate := avgOf recent (fun r => r.input_error_rate)
  let avgOutputErrorRate := avgOf recent (fun r => r.output_error_rate)
  let validMCS := recent.filter (fun r => decide (0 ≤ r.mcs_index))
  let avgMCS : ℚ :=
    if 0 < validMCS.length then listAvg (validMCS.map (fun r => (r.mcs_index : ℚ)))
    else -1
  let roamCount := (recent.filter (fun r => r.bssid_changed == 1)).length
  let i1 : List Issue :=
    if avgRSSI < -70 then [{ factor := "weak_signal", score := min 1 ((-avgRSSI - 70) / 20) }]
    else []
  let totalErrorRate := avgInputErrorRate + avgOutputErrorRate
  let i2 : List Issue :=
    if 0.005 < totalErrorRate then [{ factor := "high_error_rate", score := min 1 (totalErrorRate / 0.05) }]
    else []
  let expectedMCS : ℚ :=
    if -50 < avgRSSI then 9 else if -60 < avgRSSI then 7 else if -70 < avgRSSI then 5 else 3
  let mcsDeficit := expectedMCS - avgMCS
  let i3 : List Issue :=
    if 0 ≤ avgMCS ∧ 2 < mcsDeficit then [{ factor := "mcs_below_expected", score := min 1 (mcsDeficit / 5) }]
    else []
  let i4 : List Issue :=
    if 20 < avgJitter then [{ factor := "high_jitter", score := min 1 ((avgJitter - 20) / 50) }]
    else []
  let i5 : List Issue :=
    if 0.5 < avgPacketLoss then [{ factor := "packet_loss", score := min 1 (avgPacketLoss / 5) }]
    else []
  let i6 : List Issue :=
    if 3 < roamCount then [{ factor := "excessive_roaming", score := min 1 ((roamCount : ℚ) / 10) }]
    else []
  let i7 : List Issue :=
    if -60 < avgRSSI ∧ avgDownload < 50 then [{ factor := "slow_despite_good_signal", score := min 1 ((50 - avgDownload) / 50) }]
    else []
  i1 ++ i2 ++ i3 ++ i4 ++ i5 ++ i6 ++ i7

/-- The confidence computation of index.js:2114-2121: sort issues by
score descending, `primaryIssue = issues[0]`, confidence
`min(0.95, 0.5 + primary.score*0.3 + min(count,3)*0.05)` or `0.1` when
no issue is active. -/
def confidenceOf (recent : List SpeedRow) : ℚ :=
  let issues := issuesOf recent
  match sortIssues issues with
  | [] => 0.1
  | primary :: _ =>
    min 0.95 (0.5 + primary.score * 0.3 + ((min issues.length 3 : Nat) : ℚ) * 0.05)

/-- The diagnose endpoint's confidence output: `none` models the
`Insufficient data` response for fewer than 3 recent rows. -/
def diagnoseConfidence (db : DB) (now : ℤ) (dev : String) : Option ℚ :=
  let recent := recentData db now dev
  if recent.length < 3 then none else some (confidenceOf recent)

/-- Specification-side definition: the highest factor score
(`none` when no factor is active). -/
def maxScore (issues : List Issue) : Option ℚ := (issues.map (fun i => i.score)).maximum

/-- The mean download the diagnose endpoint actually uses (over at most
the 50 most recent qualifying rows). -/
def diagAvgDownload (db : DB) (now : ℤ) (dev : String) : ℚ :=
  avgOf (recentData db now dev) (fun r => r.download_mbps)

/-- Specification-side definition for comparison: the mean download as a
statistic over the full 7-day window of qualifying rows. -/
def fullWindowAvgDownload (db : DB) (now : ℤ) (dev : String) : ℚ :=
  avgOf (qualifying db now dev) (fun r => r.download_mbps)

/-! ### Concrete fixtures used by witnesses and counterexamples -/

/-- The empty database. -/
def emptyDB : DB :=
  { speed_results := [], device_baselines := [], alert_configs := [],
    alert_history := [], connection_events := [] }

/-- A healthy stored row; fixtures derive from it with `with`. -/
def row0 : SpeedRow :=
  { id := 0, device_id := "d", timestamp_utc := 0, status := "success",
    download_mbps := 100, upload_mbps := 10, jitter_ms := 5,
    packet_loss_pct := 0, input_error_rate := 0, output_error_rate := 0,
    rssi_dbm := -50, mcs_index := 9, bssid_changed := 0 }

/-- A benign request payload; fixtures derive from it with `with`. -/
def basePayload : Payload :=
  { device_id := some "d", status := none, timestamp_utc := none,
    download_mbps := 100, upload_mbps := 10, jitter_ms := 0,
    packet_loss_pct := 0, input_error_rate := 0, output_error_rate := 0,
    rssi_dbm := 0, mcs_index := none, tcp_retransmits := 0,
    bssid_changed := false }

/-- "The device is cold": no baseline row, or one with fewer than 10
samples. -/
def baselineCold (db : DB) (dev : String) : Prop :=
  ∀ b, getBaseline db dev = some b → b.sample_count < 10

/-! ### C4: updateBaseline is a no-op below 5 qualifying records -/

/-- C4.  With fewer than 5 successful stored records for the device,
`updateBaseline` returns the database unchanged: no baseline row (of this
or any other device) is written. -/
theorem C4_updateBaseline_noop (sqrtF : ℚ → ℚ) (db : DB) (dev : String)
    (h : (successRows db dev).length < 5) :
    updateBaseline sqrtF db dev = db := by
  have h1 : (recent100 db dev).length < 5 := by
    have : (recent100 db dev).length ≤ (successRows db dev).length := by
      simp [recent100, sortRows, List.length_take, List.length_insertionSort]
    omega
  unfold updateBaseline
  simp [h1]

/-- A stale baseline row used by the C4 witness. -/
def oldBase : BaselineRow :=
  { device_id := "d", baseline_download := 42, baseline_upload := 1,
    baseline_jitter := 2, stddev_download := 3, stddev_upload := 4,
    stddev_jitter := 5, sample_count := 17 }

/-- Database with only 4 successful records for device `d` plus a prior
baseline row. -/
def dbC4 : DB :=
  { emptyDB with
    speed_results := [row0, { row0 with id := 1 }, { row0 with id := 2 },
      { row0 with id := 3 }],
    device_baselines := [oldBase] }

unseal Rat.add Rat.mul Rat.sub Rat.inv Rat.ofScientific Nat.gcd in
/-- Witness for C4 at a database holding 4 successful records and a prior
baseline row. -/
theorem C4_updateBaseline_noop_witness :
    ((successRows dbC4 "d").length < 5) ∧
      updateBaseline (fun _ => 0) dbC4 "d" = dbC4 :=
  ⟨by decide, C4_updateBaseline_noop _ _ _ (by decide)⟩

/-! ### C3: cold-start guarantee of detectAnomaly -/

/-- C3.  When the device's baseline row is absent or has fewer than 10
samples, `detectAnomaly` reports no anomaly and its only state change is
the self-seeding `updateBaseline` call; conversely an anomaly report
implies a baseline with at least 10 samples exists. -/
theorem C3_cold_start (sqrtF : ℚ → ℚ) (db : DB) (p : Payload) :
    (baselineCold db (payloadDev p) →
      (detectAnomaly sqrtF db p).1 = none ∧
      (detectAnomaly sqrtF db p).2 = updateBaseline sqrtF db (payloadDev p)) ∧
    ((detectAnomaly sqrtF db p).1 ≠ none →
      ∃ b, getBaseline db (payloadDev p) = some b ∧ 10 ≤ b.sample_count) := by
  constructor
  · intro h
    unfold detectAnomaly
    cases hb : getBaseline db (payloadDev p) with
    | none => simp
    | some b =>
      have hc : b.sample_count < 10 := h b hb
      simp [hc]
  · intro h
    unfold detectAnomaly at h
    cases hb : getBaseline db (payloadDev p) with
    | none => rw [hb] at h; simp at h
    | some b =>
      rw [hb] at h
      by_cases hc : b.sample_count < 10
      · simp [hc] at h
      · exact ⟨b, rfl, by omega⟩

/-- Witness for C3 on the empty database (no baseline at all), with an
extreme record. -/
theorem C3_cold_start_witness :
    (detectAnomaly (fun _ => 0) emptyDB { basePayload with download_mbps := -1000000 }).1 = none ∧
    (detectAnomaly (fun _ => 0) emptyDB { basePayload with download_mbps := -1000000 }).2 =
      updateBaseline (fun _ => 0) emptyDB
        (payloadDev { basePayload with download_mbps := -1000000 }) :=
  (C3_cold_start (fun _ => 0) emptyDB _).1
    (by intro b hb; simp [getBaseline, emptyDB] at hb)

/-! ### C2: low-download anomaly with the correct z-score -/

/-- C2.  With a baseline of at least 10 samples and positive download
stddev, a record more than two stddevs below the baseline mean yields a
`low_download` anomaly, first in the list, carrying the z-score formatted
to 2 decimals, the baseline mean formatted to 1 decimal, and the record's
raw download. -/
theorem C2_low_download_anomaly (sqrtF : ℚ → ℚ) (db : DB) (p : Payload)
    (b : BaselineRow)
    (hb : getBaseline db (payloadDev p) = some b)
    (hn : 10 ≤ b.sample_count)
    (hsd : 0 < b.stddev_download)
    (hlow : p.download_mbps < b.baseline_download - 2 * b.stddev_download) :
    ∃ rest, (detectAnomaly sqrtF db p).1 =
      some ({ type := "low_download",
              zscore := jsToFixed
                ((p.download_mbps - b.baseline_download) / b.stddev_download) 2,
              expected := jsToFixed b.baseline_download 1,
              actual := p.download_mbps } :: rest) := by
  have hz : (p.download_mbps - b.baseline_download) / b.stddev_download < -2 := by
    rw [div_lt_iff₀ hsd]
    nlinarith
  have h10 : ¬ b.sample_count < 10 := by omega
  have hc1 : 0 < b.stddev_download ∧
      (p.download_mbps - b.baseline_download) / b.stddev_download < -2 := ⟨hsd, hz⟩
  refine ⟨(if 0 < b.stddev_jitter ∧
      2 < (p.jitter_ms - b.baseline_jitter) / b.stddev_jitter then
        [{ type := "high_jitter",
           zscore := jsToFixed ((p.jitter_ms - b.baseline_jitter) / b.stddev_jitter) 2,
           expected := jsToFixed b.baseline_jitter 1,
           actual := p.jitter_ms }] else []), ?_⟩
  simp only [detectAnomaly, hb, if_neg h10, if_pos hc1]
  simp

/-- Scenario A baseline: mean download 100, stddev 10, 20 samples. -/
def baseC2 : BaselineRow :=
  { device_id := "d", baseline_download := 100, baseline_upload := 0,
    baseline_jitter := 0, stddev_download := 10, stddev_upload := 0,
    stddev_jitter := 0, sample_count := 20 }

/-- Database holding only the Scenario A baseline. -/
def dbC2 : DB := { emptyDB with device_baselines := [baseC2] }

/-- Scenario A incoming record: download 70. -/
def pC2 : Payload := { basePayload with download_mbps := 70 }

unseal Rat.add Rat.mul Rat.sub Rat.inv Rat.ofScientific Nat.gcd in
/-- Witness for C2: Scenario A (baseline mean 100, stddev 10, 20 samples,
incoming download 70) reports z formatted as `-3.00`, expected `100.0`,
actual 70. -/
theorem C2_low_download_anomaly_witness :
    ∃ rest, (detectAnomaly (fun _ => 0) dbC2 pC2).1 =
      some ({ type := "low_download", zscore := "-3.00", expected := "100.0",
              actual := 70 } :: rest) := by
  obtain ⟨rest, h⟩ := C2_low_download_anomaly (fun _ => 0) dbC2 pC2 baseC2
    (by decide) (by decide) (by decide) (by decide)
  refine ⟨rest, ?_⟩
  rw [h]
  simp only [Option.some.injEq, List.cons.injEq]
  exact ⟨by decide, trivial⟩


/-! ### C1 / C5: the rule cascade's real priority order -/

/-- Append rows to a database's alert history (the only write the alert
loops perform). -/
def withHistory (db : DB) (rows : List HistRow) : DB :=
  { db with alert_history := db.alert_history ++ rows }

lemma withHistory_nil (db : DB) : withHistory db [] = db := by
  simp [withHistory]

lemma withHistory_append (db : DB) (r s : List HistRow) :
    withHistory (withHistory db r) s = withHistory db (r ++ s) := by
  simp [withHistory]

lemma withHistory_connection_events (db : DB) (rows : List HistRow) :
    (withHistory db rows).connection_events = db.connection_events := rfl

/-- `ruleEval` reads the database only through the connection-event
counts of rules 5 and 7. -/
lemma ruleEval_congr_events (cfg : AlertConfig) (now : ℤ) (p : Payload)
    {db₁ db₂ : DB} (h : db₁.connection_events = db₂.connection_events) :
    ruleEval cfg db₁ now p = ruleEval cfg db₂ now p := by
  unfold ruleEval matchRoaming matchDisconnects roamCountLastHour
    disconnectCountLastHour
  rw [h]

/-- A triggered rule-5 alert is always an `Excessive Roaming` alert. -/
lemma matchRoaming_type {db : DB} {now : ℤ} {p : Payload} {a : Alert}
    (h : matchRoaming db now p = some a) : a.alert_type = "Excessive Roaming" := by
  unfold matchRoaming at h
  split at h
  · cases h; rfl
  · exact absurd h (by simp)

/-- A triggered rule-6 alert is always a `Hidden Congestion` alert. -/
lemma matchCongestion_type {p : Payload} {a : Alert}
    (h : matchCongestion p = some a) : a.alert_type = "Hidden Congestion" := by
  unfold matchCongestion at h
  split at h
  · cases h; rfl
  · exact absurd h (by simp)

/-- A triggered rule-7 alert is always a `Frequent Disconnects` alert. -/
lemma matchDisconnects_type {db : DB} {now : ℤ} {p : Payload} {a : Alert}
    (h : matchDisconnects db now p = some a) : a.alert_type = "Frequent Disconnects" := by
  unfold matchDisconnects at h
  split at h
  · cases h; rfl
  · exact absurd h (by simp)

/-- The history rows inserted by the per-config rule loop of
`checkAlerts`, one per enabled config whose cascade triggered. -/
def thresholdRows (db : DB) (now : ℤ) (p : Payload) : List HistRow :=
  (db.alert_configs.filter (fun c => c.enabled)).filterMap
    (fun cfg => (ruleEval cfg db now p).map (histRowOf cfg (payloadDev p)))

/-- The `Anomaly Detected` history row of index.js:1222-1225. -/
def anomalyRow (cfg : AlertConfig) (dev : String) : HistRow :=
  { alert_config_id := cfg.id, device_id := dev,
    alert_type := "Anomaly Detected", severity := "warning" }

/-- The history rows inserted by the anomaly loop of `checkAlerts`. -/
def anomalyRows (sqrtF : ℚ → ℚ) (db : DB) (p : Payload) : List HistRow :=
  match (detectAnomaly sqrtF db p).1 with
  | some l =>
    if l.isEmpty then []
    else ((db.alert_configs.filter (fun c => c.enabled)).filter
      (fun c => c.enabled)).map (fun cfg => anomalyRow cfg (payloadDev p))
  | none => []

/-- Appending history rows does not change what the rule cascade sees. -/
lemma ruleEval_withHistory (c : AlertConfig) (db : DB) (rows : List HistRow)
    (now : ℤ) (p : Payload) :
    ruleEval c (withHistory db rows) now p = ruleEval c db now p :=
  ruleEval_congr_events c now p rfl

/-- Database effect of one iteration of the rule loop: append the
triggered row (if any) to `alert_history`, everything else unchanged. -/
lemma alertStep_db (f : Nat → Bool) (now : ℤ) (p : Payload)
    (st : AlertSt) (cfg : AlertConfig) :
    (alertStep f now p st cfg).db =
      withHistory st.db ((ruleEval cfg st.db now p).map (histRowOf cfg (payloadDev p))).toList := by
  unfold alertStep
  cases h : ruleEval cfg st.db now p with
  | none => simp [withHistory]
  | some a => by_cases hs : cfg.type == "slack" <;> simp [hs, withHistory]

/-- Database effect of the whole rule loop. -/
lemma alertLoop_db (f : Nat → Bool) (now : ℤ) (p : Payload) :
    ∀ (cfgs : List AlertConfig) (st : AlertSt),
    (cfgs.foldl (alertStep f now p) st).db =
      withHistory st.db
        (cfgs.filterMap
          (fun cfg => (ruleEval cfg st.db now p).map (histRowOf cfg (payloadDev p)))) := by
  intro cfgs
  induction cfgs with
  | nil => intro st; simp [withHistory_nil]
  | cons cfg rest ih =>
    intro st
    rw [List.foldl_cons, ih, alertStep_db]
    simp only [ruleEval_withHistory, withHistory_append]
    congr 1
    cases h : ruleEval cfg st.db now p with
    | none => simp [List.filterMap_cons, h]
    | some a => simp [List.filterMap_cons, h]

/-- Database effect of one iteration of the anomaly loop. -/
lemma anomalyStep_db (f : Nat → Bool) (p : Payload)
    (st : AlertSt) (cfg : AlertConfig) :
    (anomalyStep f p st cfg).db =
      withHistory st.db [anomalyRow cfg (payloadDev p)] := by
  unfold anomalyStep
  by_cases hs : cfg.type == "slack" <;> simp [hs, withHistory, anomalyRow]

/-- Database effect of the whole anomaly loop. -/
lemma anomalyLoop_db (f : Nat → Bool) (p : Payload) :
    ∀ (cfgs : List AlertConfig) (st : AlertSt),
    (cfgs.foldl (anomalyStep f p) st).db =
      withHistory st.db (cfgs.map (fun cfg => anomalyRow cfg (payloadDev p))) := by
  intro cfgs
  induction cfgs with
  | nil => intro st; simp [withHistory_nil]
  | cons cfg rest ih =>
    intro st
    rw [List.foldl_cons, ih, anomalyStep_db, withHistory_append]
    rfl

/-- The anomaly list computed by `detectAnomaly` depends on the database
only through the baseline store (the self-seeding branch also reads
`speed_results`, but only for its second component). -/
lemma detectAnomaly_fst_congr (sqrtF : ℚ → ℚ) (p : Payload) {db₁ db₂ : DB}
    (hb : db₁.device_baselines = db₂.device_baselines) :
    (detectAnomaly sqrtF db₁ p).1 = (detectAnomaly sqrtF db₂ p).1 := by
  unfold detectAnomaly getBaseline
  rw [hb]
  cases h : db₂.device_baselines.find? (fun b => b.device_id == payloadDev p) with
  | none => rfl
  | some b => by_cases hc : b.sample_count < 10 <;> simp [hc]

/-- `updateBaseline` writes only the baseline store. -/
lemma updateBaseline_alert_history (sqrtF : ℚ → ℚ) (db : DB) (dev : String) :
    (updateBaseline sqrtF db dev).alert_history = db.alert_history := by
  unfold updateBaseline
  dsimp only
  split <;> rfl

/-- `detectAnomaly` never writes the alert history. -/
lemma detectAnomaly_snd_alert_history (sqrtF : ℚ → ℚ) (db : DB) (p : Payload) :
    (detectAnomaly sqrtF db p).2.alert_history = db.alert_history := by
  unfold detectAnomaly
  cases hg : getBaseline db (payloadDev p) with
  | none => simp [updateBaseline_alert_history]
  | some b =>
    by_cases hc : b.sample_count < 10 <;> simp [hc, updateBaseline_alert_history]

/-- When `detectAnomaly` reports anomalies it leaves the database
untouched (the self-seeding branch reports none). -/
lemma detectAnomaly_some_snd (sqrtF : ℚ → ℚ) (db : DB) (p : Payload)
    (l : List Anomaly) (h : (detectAnomaly sqrtF db p).1 = some l) :
    (detectAnomaly sqrtF db p).2 = db := by
  unfold detectAnomaly at h ⊢
  cases hg : getBaseline db (payloadDev p) with
  | none => rw [hg] at h; simp at h
  | some b =>
    rw [hg] at h
    by_cases hc : b.sample_count < 10
    · simp [hc] at h
    · simp [hc]

/-- History rows appended by one full `checkAlerts` run: the rule loop's
rows (at most one per enabled config), then the anomaly loop's rows. -/
lemma checkAlerts_history (sqrtF : ℚ → ℚ) (fetch : Nat → Bool) (now : ℤ)
    (db : DB) (p : Payload) :
    (checkAlerts sqrtF fetch now db p).db.alert_history =
      db.alert_history ++ thresholdRows db now p ++ anomalyRows sqrtF db p := by
  unfold checkAlerts
  simp only [alertLoop_db]
  have hR : List.filterMap
      (fun cfg => Option.map (histRowOf cfg (payloadDev p)) (ruleEval cfg db now p))
      (List.filter (fun c => c.enabled) db.alert_configs) =
      thresholdRows db now p := rfl
  rw [hR]
  have hb1 : (withHistory db (thresholdRows db now p)).device_baselines =
      db.device_baselines := rfl
  have hfst := detectAnomaly_fst_congr sqrtF p hb1
  have hsnd := detectAnomaly_snd_alert_history sqrtF
    (withHistory db (thresholdRows db now p)) p
  cases ha : (detectAnomaly sqrtF (withHistory db (thresholdRows db now p)) p).1 with
  | none =>
    have hrows : anomalyRows sqrtF db p = [] := by
      unfold anomalyRows
      rw [← hfst, ha]
    dsimp only
    rw [hsnd, hrows]
    simp [withHistory]
  | some l =>
    have hdb2 := detectAnomaly_some_snd sqrtF
      (withHistory db (thresholdRows db now p)) p l ha
    by_cases he : l.isEmpty
    · have hrows : anomalyRows sqrtF db p = [] := by
        unfold anomalyRows
        rw [← hfst, ha]
        simp [he]
      dsimp only
      rw [if_pos he]
      dsimp only
      rw [hsnd, hrows]
      simp [withHistory]
    · have hrows : anomalyRows sqrtF db p =
          ((db.alert_configs.filter (fun c => c.enabled)).filter
            (fun c => c.enabled)).map (fun cfg => anomalyRow cfg (payloadDev p)) := by
        unfold anomalyRows
        rw [← hfst, ha]
        simp [he]
      dsimp only
      rw [if_neg he]
      rw [anomalyLoop_db]
      dsimp only
      rw [hdb2, withHistory_append, hrows]
      simp [withHistory]

/-- The guarded tail of the cascade (rules 5-7) can never produce a
`High Error Rate` alert: those rules carry other type tags. -/
lemma tailChain_not_errorRate (db : DB) (now : ℤ) (p : Payload) (sev : String)
    (h : guarded (guarded (matchRoaming db now p) (matchCongestion p))
        (matchDisconnects db now p) =
      some { alert_type := "High Error Rate", severity := sev }) : False := by
  cases hr : matchRoaming db now p with
  | some a =>
    simp only [guarded, hr] at h
    injection h with h'
    subst h'
    have ht := matchRoaming_type hr
    simp at ht
  | none =>
    cases hc : matchCongestion p with
    | some a =>
      simp only [guarded, hr, hc] at h
      injection h with h'
      subst h'
      have ht := matchCongestion_type hc
      simp at ht
    | none =>
      cases hd : matchDisconnects db now p with
      | some a =>
        simp only [guarded, hr, hc, hd] at h
        injection h with h'
        subst h'
        have ht := matchDisconnects_type hd
        simp at ht
      | none =>
        simp only [guarded, hr, hc, hd] at h
        exact Option.noConfusion h

/-- C1 (amended).  For every config the cascade is first-match-wins in
the order packet loss, jitter, download, link errors, roaming, hidden
congestion, disconnects (the three unguarded threshold checks resolve in
reverse order because later matches overwrite earlier ones); and one
`checkAlerts` run appends exactly one history row per enabled config
whose cascade triggered (`thresholdRows` is a `filterMap` over the
enabled configs, hence at most one threshold row per config per record),
followed by the anomaly rows. -/
theorem C1_first_match_amended :
    (∀ (cfg : AlertConfig) (db : DB) (now : ℤ) (p : Payload),
      ruleEval cfg db now p = firstMatchCode cfg db now p) ∧
    (∀ (sqrtF : ℚ → ℚ) (fetch : Nat → Bool) (now : ℤ) (db : DB) (p : Payload),
      (checkAlerts sqrtF fetch now db p).db.alert_history =
        db.alert_history ++ thresholdRows db now p ++ anomalyRows sqrtF db p) := by
  constructor
  · intro cfg db now p
    unfold ruleEval firstMatchCode firstSome overwrite guarded
    cases matchPacketLoss cfg p <;> cases matchJitter cfg p <;>
      cases matchDownload cfg p <;> cases matchErrorRate p <;>
      cases matchRoaming db now p <;> cases matchCongestion p <;>
      cases matchDisconnects db now p <;> rfl
  · exact checkAlerts_history

/-- Config for the C1 counterexample: download threshold 100, jitter
threshold 10. -/
def cfgC1 : AlertConfig :=
  { id := 1, enabled := true, type := "none", webhook_url := "",
    threshold_download_mbps := some 100, threshold_jitter_ms := some 10,
    threshold_packet_loss_pct := none }

/-- Record violating both thresholds: download 50 (< 100), jitter 25
(> 2x10). -/
def pC1 : Payload := { basePayload with download_mbps := 50, jitter_ms := 25 }

unseal Rat.add Rat.mul Rat.sub Rat.inv Rat.ofScientific Nat.gcd in
/-- Counterexample to C1 as stated: with both the download and the jitter
rule violated, the claimed first-match order would report the download
rule, but the code reports `High Jitter` — the later unguarded check
overwrote the earlier match. -/
theorem C1_first_match_cex :
    firstMatchClaimed cfgC1 emptyDB 0 pC1 =
      some { alert_type := "Low Download Speed", severity := "warning" } ∧
    ruleEval cfgC1 emptyDB 0 pC1 =
      some { alert_type := "High Jitter", severity := "critical" } ∧
    ruleEval cfgC1 emptyDB 0 pC1 ≠ firstMatchClaimed cfgC1 emptyDB 0 pC1 :=
  ⟨by decide, by decide, by decide⟩

/-- C5 (amended).  When none of the three configured threshold rules
matched, the link-error rule triggers exactly when the larger of the
input and output error rates exceeds 1, and the severity is `critical`
exactly when that maximum exceeds 5. -/
theorem C5_error_rate_amended (cfg : AlertConfig) (db : DB) (now : ℤ)
    (p : Payload)
    (h1 : matchDownload cfg p = none) (h2 : matchJitter cfg p = none)
    (h3 : matchPacketLoss cfg p = none) :
    ((∃ sev, ruleEval cfg db now p =
        some { alert_type := "High Error Rate", severity := sev }) ↔
      1 < errorRate p) ∧
    (1 < errorRate p →
      ruleEval cfg db now p = some ⟨"High Error Rate", if 5 < errorRate p then "critical" else "warning"⟩) := by
  have hbase : ruleEval cfg db now p =
      guarded (guarded (guarded (matchErrorRate p) (matchRoaming db now p))
        (matchCongestion p)) (matchDisconnects db now p) := by
    unfold ruleEval
    rw [h1, h2, h3]
    rfl
  have htrig : 1 < errorRate p →
      ruleEval cfg db now p = some ⟨"High Error Rate", if 5 < errorRate p then "critical" else "warning"⟩ := by
    intro her
    have hER : matchErrorRate p = some ⟨"High Error Rate", if 5 < errorRate p then "critical" else "warning"⟩ := by
      unfold matchErrorRate
      rw [if_pos her]
    rw [hbase, hER]
    rfl
  refine ⟨⟨?_, fun her => ⟨_, htrig her⟩⟩, htrig⟩
  rintro ⟨sev, hs⟩
  by_contra hno
  have hER : matchErrorRate p = none := by
    unfold matchErrorRate
    rw [if_neg hno]
  rw [hbase, hER] at hs
  exact tailChain_not_errorRate db now p sev hs

/-- Config for the C5 fixtures: no numeric thresholds configured. -/
def cfgC5 : AlertConfig :=
  { id := 2, enabled := true, type := "none", webhook_url := "",
    threshold_download_mbps := none, threshold_jitter_ms := none,
    threshold_packet_loss_pct := none }

/-- Record whose input+output error rates sum to 1.6% while each stays
at 0.8%. -/
def pC5 : Payload :=
  { basePayload with input_error_rate := 0.8, output_error_rate := 0.8 }

unseal Rat.add Rat.mul Rat.sub Rat.inv Rat.ofScientific Nat.gcd in
/-- Counterexample to C5 as stated: the combined (input + output) rate
exceeds 1%, yet no alert fires, because the code thresholds
`Math.max(input, output)`, not the sum. -/
theorem C5_combined_rate_cex :
    1 < pC5.input_error_rate + pC5.output_error_rate ∧
    ¬ 1 < errorRate pC5 ∧
    ruleEval cfgC5 emptyDB 0 pC5 = none :=
  ⟨by decide, by decide, by decide⟩

/-- Record with an input error rate of 6%. -/
def pC5crit : Payload := { basePayload with input_error_rate := 6 }

unseal Rat.add Rat.mul Rat.sub Rat.inv Rat.ofScientific Nat.gcd in
/-- Witness for the amended C5 at a concrete record (max rate 6 ⇒
`critical` link-error alert). -/
theorem C5_error_rate_amended_witness :
    ((∃ sev, ruleEval cfgC5 emptyDB 0 pC5crit =
        some { alert_type := "High Error Rate", severity := sev }) ↔
      1 < errorRate pC5crit) ∧
    (1 < errorRate pC5crit →
      ruleEval cfgC5 emptyDB 0 pC5crit = some ⟨"High Error Rate", if 5 < errorRate pC5crit then "critical" else "warning"⟩) :=
  C5_error_rate_amended cfgC5 emptyDB 0 pC5crit (by decide) (by decide) (by decide)

/-! ### C8: AlertHistory is written before dispatch is attempted -/

/-- The `(config id, alert type)` keys of the history rows inserted along
a trace prefix. -/
def seenKeys (seen : List (Nat × String)) : List Effect → List (Nat × String)
  | [] => seen
  | Effect.insertHistory h :: rest =>
    seenKeys ((h.alert_config_id, h.alert_type) :: seen) rest
  | Effect.dispatch _ _ _ :: rest => seenKeys seen rest

/-- Scan invariant: every dispatch in the trace is for an alert whose
history row was already inserted (or was already recorded in `seen`). -/
def okTrace (seen : List (Nat × String)) : List Effect → Prop
  | [] => True
  | Effect.insertHistory h :: rest =>
    okTrace ((h.alert_config_id, h.alert_type) :: seen) rest
  | Effect.dispatch cid ty _ :: rest => (cid, ty) ∈ seen ∧ okTrace seen rest

/-- Readable form of the ordering property: wherever a dispatch occurs in
the trace, a matching history-row insertion occurs strictly before it. -/
def insertPrecedesDispatch (t : List Effect) : Prop :=
  ∀ (pre : List Effect) (cid : Nat) (ty : String) (ok : Bool) (post : List Effect),
    t = pre ++ Effect.dispatch cid ty ok :: post →
    ∃ row, Effect.insertHistory row ∈ pre ∧
      row.alert_config_id = cid ∧ row.alert_type = ty

lemma okTrace_append (c : List Effect) :
    ∀ (t : List Effect) (seen : List (Nat × String)),
    okTrace seen t → okTrace (seenKeys seen t) c → okTrace seen (t ++ c) := by
  intro t
  induction t with
  | nil => intro seen _ hc; exact hc
  | cons e rest ih =>
    intro seen ht hc
    cases e with
    | insertHistory h => exact ih _ ht hc
    | dispatch cid ty ok => exact ⟨ht.1, ih _ ht.2 hc⟩

lemma okTrace_decomp :
    ∀ (pre : List Effect) (seen : List (Nat × String)) (cid : Nat)
      (ty : String) (ok : Bool) (post : List Effect),
    okTrace seen (pre ++ Effect.dispatch cid ty ok :: post) →
    (cid, ty) ∈ seen ∨
      ∃ row, Effect.insertHistory row ∈ pre ∧
        row.alert_config_id = cid ∧ row.alert_type = ty := by
  intro pre
  induction pre with
  | nil => intro seen cid ty ok post h; exact Or.inl h.1
  | cons e rest ih =>
    intro seen cid ty ok post h
    cases e with
    | insertHistory r =>
      rcases ih _ cid ty ok post h with hmem | ⟨row, h1, h2, h3⟩
      · rcases List.mem_cons.mp hmem with heq | hseen
        · have hc : cid = r.alert_config_id := congrArg Prod.fst heq
          have hty : ty = r.alert_type := congrArg Prod.snd heq
          exact Or.inr ⟨r, List.mem_cons_self _ _, hc.symm, hty.symm⟩
        · exact Or.inl hseen
      · exact Or.inr ⟨row, List.mem_cons_of_mem _ h1, h2, h3⟩
    | dispatch c2 t2 o2 =>
      rcases ih _ cid ty ok post h.2 with hmem | ⟨row, h1, h2, h3⟩
      · exact Or.inl hmem
      · exact Or.inr ⟨row, List.mem_cons_of_mem _ h1, h2, h3⟩

lemma okTrace_imp_insertPrecedesDispatch (t : List Effect)
    (h : okTrace [] t) : insertPrecedesDispatch t := by
  intro pre cid ty ok post ht
  rw [ht] at h
  rcases okTrace_decomp pre [] cid ty ok post h with hmem | hrow
  · exact absurd hmem (List.not_mem_nil _)
  · exact hrow

/-- One rule-loop iteration appends a self-contained chunk: nothing, or
an insertion, or an insertion immediately followed by its dispatch. -/
lemma alertStep_trace (f : Nat → Bool) (now : ℤ) (p : Payload)
    (st : AlertSt) (cfg : AlertConfig) :
    ∃ c, (alertStep f now p st cfg).trace = st.trace ++ c ∧
      ∀ seen, okTrace seen c := by
  unfold alertStep
  cases h : ruleEval cfg st.db now p with
  | none => exact ⟨[], by simp, fun _ => trivial⟩
  | some a =>
    by_cases hs : cfg.type == "slack"
    · refine ⟨[Effect.insertHistory (histRowOf cfg (payloadDev p) a),
        Effect.dispatch cfg.id a.alert_type (sendSlackAlert (f st.k))],
        by simp [hs], fun seen => ?_⟩
      exact ⟨List.mem_cons_self _ _, trivial⟩
    · exact ⟨[Effect.insertHistory (histRowOf cfg (payloadDev p) a)],
        by simp [hs], fun _ => trivial⟩

/-- Same for one anomaly-loop iteration. -/
lemma anomalyStep_trace (f : Nat → Bool) (p : Payload)
    (st : AlertSt) (cfg : AlertConfig) :
    ∃ c, (anomalyStep f p st cfg).trace = st.trace ++ c ∧
      ∀ seen, okTrace seen c := by
  unfold anomalyStep
  by_cases hs : cfg.type == "slack"
  · refine ⟨[Effect.insertHistory (anomalyRow cfg (payloadDev p)),
      Effect.dispatch cfg.id "Anomaly Detected" (sendSlackAlert (f st.k))],
      by simp [hs, anomalyRow], fun seen => ?_⟩
    exact ⟨List.mem_cons_self _ _, trivial⟩
  · exact ⟨[Effect.insertHistory (anomalyRow cfg (payloadDev p))],
      by simp [hs, anomalyRow], fun _ => trivial⟩

lemma okTrace_extend {t c : List Effect}
    (ht : okTrace [] t) (hc : ∀ seen, okTrace seen c) : okTrace [] (t ++ c) :=
  okTrace_append c t [] ht (hc _)

lemma alertLoop_okTrace (f : Nat → Bool) (now : ℤ) (p : Payload) :
    ∀ (cfgs : List AlertConfig) (st : AlertSt),
    okTrace [] st.trace →
    okTrace [] ((cfgs.foldl (alertStep f now p) st).trace) := by
  intro cfgs
  induction cfgs with
  | nil => intro st h; exact h
  | cons cfg rest ih =>
    intro st h
    rw [List.foldl_cons]
    obtain ⟨c, hc, hok⟩ := alertStep_trace f now p st cfg
    exact ih _ (by rw [hc]; exact okTrace_extend h hok)

lemma anomalyLoop_okTrace (f : Nat → Bool) (p : Payload) :
    ∀ (cfgs : List AlertConfig) (st : AlertSt),
    okTrace [] st.trace →
    okTrace [] ((cfgs.foldl (anomalyStep f p) st).trace) := by
  intro cfgs
  induction cfgs with
  | nil => intro st h; exact h
  | cons cfg rest ih =>
    intro st h
    rw [List.foldl_cons]
    obtain ⟨c, hc, hok⟩ := anomalyStep_trace f p st cfg
    exact ih _ (by rw [hc]; exact okTrace_extend h hok)

/-- The full `checkAlerts` trace satisfies the scan invariant. -/
lemma checkAlerts_okTrace (sqrtF : ℚ → ℚ) (fetch : Nat → Bool) (now : ℤ)
    (db : DB) (p : Payload) :
    okTrace [] (checkAlerts sqrtF fetch now db p).trace := by
  unfold checkAlerts
  have h1 := alertLoop_okTrace fetch now p
    (db.alert_configs.filter (fun c => c.enabled))
    { db := db, trace := [], k := 0 } trivial
  cases ha : (detectAnomaly sqrtF
      (List.foldl (alertStep fetch now p) { db := db, trace := [], k := 0 }
        (db.alert_configs.filter (fun c => c.enabled))).db p).1 with
  | none => simpa [ha] using h1
  | some l =>
    by_cases he : l.isEmpty
    · simpa [ha, he] using h1
    · simp only [ha]
      rw [if_neg he]
      exact anomalyLoop_okTrace fetch p _ _ h1

/-- The stored state after `checkAlerts` does not depend on the webhook
outcomes: the return value of `sendSlackAlert` is discarded, so a failed
dispatch leaves the already-written history rows as the durable record. -/
lemma checkAlerts_db_oracle (sqrtF : ℚ → ℚ) (f₁ f₂ : Nat → Bool) (now : ℤ)
    (db : DB) (p : Payload) :
    (checkAlerts sqrtF f₁ now db p).db = (checkAlerts sqrtF f₂ now db p).db := by
  unfold checkAlerts
  simp only [alertLoop_db]
  cases ha : (detectAnomaly sqrtF
      (withHistory db
        (List.filterMap
          (fun cfg => Option.map (histRowOf cfg (payloadDev p))
            (ruleEval cfg db now p))
          (List.filter (fun c => c.enabled) db.alert_configs))) p).1 with
  | none => rfl
  | some l =>
    by_cases he : l.isEmpty
    · dsimp only
      rw [if_pos he, if_pos he]
    · dsimp only
      rw [if_neg he, if_neg he]
      simp only [anomalyLoop_db]

/-- C8.  Every dispatch in a `checkAlerts` run is preceded in the effect
trace by the insertion of its AlertHistory row, and the resulting
database is the same whatever the webhook outcomes are (`sendSlackAlert`
is a total Boolean function wrapping the fetch in `try`/`catch`, so it
never raises past its caller). -/
theorem C8_history_survives_dispatch_failure :
    ∀ (sqrtF : ℚ → ℚ) (fetch f₁ f₂ : Nat → Bool) (now : ℤ) (db : DB) (p : Payload),
    insertPrecedesDispatch (checkAlerts sqrtF fetch now db p).trace ∧
    (checkAlerts sqrtF f₁ now db p).db = (checkAlerts sqrtF f₂ now db p).db := by
  intro sqrtF fetch f₁ f₂ now db p
  exact ⟨okTrace_imp_insertPrecedesDispatch _ (checkAlerts_okTrace sqrtF fetch now db p),
    checkAlerts_db_oracle sqrtF f₁ f₂ now db p⟩

/-- Database with one enabled slack config and the Scenario A baseline,
used by the C8 witness: the record triggers a download alert and an
anomaly, so the trace contains insertions followed by dispatches. -/
def cfgC8 : AlertConfig :=
  { id := 1, enabled := true, type := "slack", webhook_url := "http://x",
    threshold_download_mbps := some 100, threshold_jitter_ms := none,
    threshold_packet_loss_pct := none }

def dbC8 : DB :=
  { emptyDB with device_baselines := [baseC2], alert_configs := [cfgC8] }

unseal Rat.add Rat.mul Rat.sub Rat.inv Rat.ofScientific Nat.gcd in
/-- Witness for C8 at a concrete run whose trace really dispatches:
`insertPrecedesDispatch` holds of it and the stored state ignores
whether the webhook succeeded or failed. -/
theorem C8_history_survives_dispatch_failure_witness :
    insertPrecedesDispatch
      (checkAlerts (fun _ => 0) (fun _ => true) 0 dbC8 pC2).trace ∧
    (checkAlerts (fun _ => 0) (fun _ => true) 0 dbC8 pC2).db =
      (checkAlerts (fun _ => 0) (fun _ => false) 0 dbC8 pC2).db :=
  C8_history_survives_dispatch_failure (fun _ => 0) (fun _ => true)
    (fun _ => true) (fun _ => false) 0 dbC8 pC2

/-! ### C7 / C9: the ingestion handler -/

/-- C7.  A submission without a (truthy) device id is rejected with the
400 error and has no side effects: the database is untouched and the
only event is the response.  A submission with a device id that stores
successfully is answered with the stored row's id. -/
theorem C7_ingest_validation :
    ∀ (sqrtF : ℚ → ℚ) (fetch : Nat → Bool) (now : ℤ) (db : DB) (data : Payload),
    (¬ devTruthy data →
      (postResults sqrtF fetch now db data).resp = Resp.badRequest ∧
      (postResults sqrtF fetch now db data).db = db ∧
      (postResults sqrtF fetch now db data).trace = [PostEv.responded]) ∧
    (devTruthy data →
      (postResults sqrtF fetch now db data).resp =
        Resp.ok (db.speed_results.length + 1)) := by
  intro sqrtF fetch now db data
  constructor
  · intro h
    unfold postResults
    rw [if_neg h]
    exact ⟨rfl, rfl, rfl⟩
  · intro h
    unfold postResults
    rw [if_pos h]

/-- Payload whose `device_id` is absent. -/
def pNoDev : Payload := { basePayload with device_id := none }

unseal Rat.add Rat.mul Rat.sub Rat.inv Rat.ofScientific Nat.gcd in
/-- Witness for C7: the missing-id request is rejected without side
effects; the well-formed request gets id 1 on the empty store. -/
theorem C7_ingest_validation_witness :
    (postResults (fun _ => 0) (fun _ => true) 0 emptyDB pNoDev).resp = Resp.badRequest ∧
    (postResults (fun _ => 0) (fun _ => true) 0 emptyDB pNoDev).db = emptyDB ∧
    (postResults (fun _ => 0) (fun _ => true) 0 emptyDB basePayload).resp = Resp.ok 1 := by
  have h1 := (C7_ingest_validation (fun _ => 0) (fun _ => true) 0 emptyDB pNoDev).1
    (by decide)
  have h2 := (C7_ingest_validation (fun _ => 0) (fun _ => true) 0 emptyDB basePayload).2
    (by decide)
  exact ⟨h1.1, h1.2.1, h2⟩

lemma trace_shape (e2 e4 : List PostEv) :
    ∃ mid, [PostEv.stored] ++ e2 ++ [PostEv.alertsInvoked] ++ e4 ++ [PostEv.responded] =
        PostEv.stored :: mid ++ [PostEv.responded] ∧
      PostEv.alertsInvoked ∈ mid := by
  refine ⟨e2 ++ [PostEv.alertsInvoked] ++ e4, by simp, by simp⟩

/-- C9 (amended).  On a valid submission the handler stores the record
first and responds last, but baseline maintenance and alert evaluation
are started in between - after the durable store yet before the response
is returned; the response itself never depends on the webhook
outcomes. -/
theorem C9_ordering_amended :
    ∀ (sqrtF : ℚ → ℚ) (fetch f₁ f₂ : Nat → Bool) (now : ℤ) (db : DB) (data : Payload),
    (devTruthy data →
      ∃ mid, (postResults sqrtF fetch now db data).trace =
          PostEv.stored :: mid ++ [PostEv.responded] ∧
        PostEv.alertsInvoked ∈ mid) ∧
    (postResults sqrtF f₁ now db data).resp = (postResults sqrtF f₂ now db data).resp := by
  intro sqrtF fetch f₁ f₂ now db data
  constructor
  · intro h
    unfold postResults
    rw [if_pos h]
    exact trace_shape _ _
  · by_cases h : devTruthy data
    · unfold postResults
      rw [if_pos h, if_pos h]
    · unfold postResults
      rw [if_neg h, if_neg h]

/-- Database with 9 successful stored records for device `d`. -/
def dbC9 : DB :=
  { emptyDB with speed_results :=
      (List.range 9).map (fun i => { row0 with id := i, timestamp_utc := (i : ℤ) }) }

unseal Rat.add Rat.mul Rat.sub Rat.inv Rat.ofScientific Nat.gcd in
/-- Counterexample to C9 as stated: on the 10th stored record the handler
runs `updateBaseline` to completion (the `baselineUpdated` event) before
the response event - the claim said baseline maintenance happens only
after the response is returned. -/
theorem C9_sync_baseline_cex :
    (postResults (fun _ => 0) (fun _ => true) 100 dbC9 basePayload).trace =
      [PostEv.stored, PostEv.alertsInvoked, PostEv.baselineUpdated, PostEv.responded] := by
  decide

unseal Rat.add Rat.mul Rat.sub Rat.inv Rat.ofScientific Nat.gcd in
/-- Witness for the amended C9 at the same concrete run. -/
theorem C9_ordering_amended_witness :
    (∃ mid, (postResults (fun _ => 0) (fun _ => true) 100 dbC9 basePayload).trace =
        PostEv.stored :: mid ++ [PostEv.responded] ∧
      PostEv.alertsInvoked ∈ mid) ∧
    (postResults (fun _ => 0) (fun _ => true) 100 dbC9 basePayload).resp =
      (postResults (fun _ => 0) (fun _ => false) 100 dbC9 basePayload).resp := by
  have h := C9_ordering_amended (fun _ => 0) (fun _ => true) (fun _ => true)
    (fun _ => false) 100 dbC9 basePayload
  exact ⟨h.1 (by decide), h.2⟩

/-! ### C6 / C10: the diagnosis engine -/

/-- Specification-side confidence: `0.1` with no active factor, else
`min(0.95, 0.5 + 0.3*highest_score + 0.05*min(factor_count, 3))`. -/
def specConfidence (issues : List Issue) : ℚ :=
  match maxScore issues with
  | none => 0.1
  | some m => min 0.95 (0.5 + 0.3 * m + 0.05 * ((min issues.length 3 : Nat) : ℚ))

lemma mem_ite_singleton {c : Prop} [Decidable c] {x i : Issue}
    (h : i ∈ (if c then [x] else [])) : c ∧ i = x := by
  split at h
  · exact ⟨by assumption, by simpa using h⟩
  · simp at h

/-- Every issue the diagnose endpoint pushes has a score in `[0, 1]`:
each is `min(1, e)` with `e` nonnegative under the factor's guard. -/
lemma issuesOf_score_bounds (recent : List SpeedRow) :
    ∀ i ∈ issuesOf recent, 0 ≤ i.score ∧ i.score ≤ 1 := by
  intro i hi
  simp only [issuesOf, List.mem_append] at hi
  rcases hi with ((((((h | h) | h) | h) | h) | h) | h)
  · obtain ⟨hc, rfl⟩ := mem_ite_singleton h
    refine ⟨le_min_iff.mpr ⟨by norm_num, ?_⟩, min_le_left _ _⟩
    have : (0:ℚ) < -avgOf recent (fun r => r.rssi_dbm) - 70 := by linarith
    positivity
  · obtain ⟨hc, rfl⟩ := mem_ite_singleton h
    refine ⟨le_min_iff.mpr ⟨by norm_num, ?_⟩, min_le_left _ _⟩
    have h5 : (0:ℚ) < avgOf recent (fun r => r.input_error_rate) +
        avgOf recent (fun r => r.output_error_rate) := by
      have : (0:ℚ) < 0.005 := by norm_num
      linarith
    positivity
  · obtain ⟨hc, rfl⟩ := mem_ite_singleton h
    refine ⟨le_min_iff.mpr ⟨by norm_num, ?_⟩, min_le_left _ _⟩
    have := hc.2
    have h0 : (0:ℚ) < (if -50 <
        avgOf recent (fun r => r.rssi_dbm) then 9 else if -60 <
        avgOf recent (fun r => r.rssi_dbm) then 7 else if -70 <
        avgOf recent (fun r => r.rssi_dbm) then 5 else 3) -
        (if 0 < (recent.filter (fun r => decide (0 ≤ r.mcs_index))).length then
          listAvg ((recent.filter (fun r => decide (0 ≤ r.mcs_index))).map
            (fun r => (r.mcs_index : ℚ)))
        else -1) := by linarith
    positivity
  · obtain ⟨hc, rfl⟩ := mem_ite_singleton h
    refine ⟨le_min_iff.mpr ⟨by norm_num, ?_⟩, min_le_left _ _⟩
    have : (0:ℚ) < avgOf recent (fun r => r.jitter_ms) - 20 := by linarith
    positivity
  · obtain ⟨hc, rfl⟩ := mem_ite_singleton h
    refine ⟨le_min_iff.mpr ⟨by norm_num, ?_⟩, min_le_left _ _⟩
    have h0 : (0:ℚ) < avgOf recent (fun r => r.packet_loss_pct) := by
      have : (0:ℚ) < 0.5 := by norm_num
      linarith
    positivity
  · obtain ⟨hc, rfl⟩ := mem_ite_singleton h
    refine ⟨le_min_iff.mpr ⟨by norm_num, ?_⟩, min_le_left _ _⟩
    positivity
  · obtain ⟨hc, rfl⟩ := mem_ite_singleton h
    refine ⟨le_min_iff.mpr ⟨by norm_num, ?_⟩, min_le_left _ _⟩
    have := hc.2
    have h0 : (0:ℚ) < 50 - avgOf recent (fun r => r.download_mbps) := by linarith
    positivity

/-- The head of the descending sort carries the maximum score. -/
lemma sortIssues_head_max {l : List Issue} {i : Issue} {rest : List Issue}
    (h : sortIssues l = i :: rest) :
    (l.map (fun x => x.score)).maximum = (i.score : WithBot ℚ) := by
  unfold sortIssues at h
  have hperm : List.Perm (List.insertionSort issueGe l) l :=
    List.perm_insertionSort issueGe l
  have hsorted : List.Sorted issueGe (List.insertionSort issueGe l) :=
    List.sorted_insertionSort issueGe l
  rw [h] at hperm hsorted
  have hi : i ∈ l := hperm.mem_iff.mp (List.mem_cons_self i rest)
  have hmax : ∀ b ∈ l.map (fun x => x.score), b ≤ i.score := by
    intro b hb
    obtain ⟨j, hj, rfl⟩ := List.mem_map.mp hb
    have hj' : j ∈ i :: rest := hperm.mem_iff.mpr hj
    rcases List.mem_cons.mp hj' with rfl | hjr
    · exact le_refl _
    · exact (List.sorted_cons.mp hsorted).1 j hjr
  exact List.maximum_eq_coe_iff.mpr ⟨List.mem_map_of_mem _ hi, hmax⟩

/-- Heads of the sorted issue list come from the issue list itself. -/
lemma sortIssues_head_mem {l : List Issue} {i : Issue} {rest : List Issue}
    (h : sortIssues l = i :: rest) : i ∈ l := by
  unfold sortIssues at h
  have hperm : List.Perm (List.insertionSort issueGe l) l :=
    List.perm_insertionSort issueGe l
  rw [h] at hperm
  exact hperm.mem_iff.mp (List.mem_cons_self i rest)

lemma sortIssues_nil {l : List Issue} (h : sortIssues l = []) : l = [] := by
  unfold sortIssues at h
  have hperm : List.Perm (List.insertionSort issueGe l) l :=
    List.perm_insertionSort issueGe l
  rw [h] at hperm
  exact hperm.symm.eq_nil

/-- C6.  With at least 3 recent qualifying rows the diagnose endpoint
reports a confidence equal to
`min(0.95, 0.5 + 0.3*primary_score + 0.05*min(factor_count, 3))` where
`primary_score` is the highest factor score, or `0.1` when no factor is
active - and that confidence always lies in `[0.1, 0.95]`. -/
theorem C6_confidence (db : DB) (now : ℤ) (dev : String)
    (h3 : 3 ≤ (recentData db now dev).length) :
    ∃ c, diagnoseConfidence db now dev = some c ∧
      c = specConfidence (issuesOf (recentData db now dev)) ∧
      (0.1 : ℚ) ≤ c ∧ c ≤ (0.95 : ℚ) := by
  unfold diagnoseConfidence
  rw [if_neg (by omega : ¬ (recentData db now dev).length < 3)]
  refine ⟨confidenceOf (recentData db now dev), rfl, ?_, ?_, ?_⟩
  · simp only [confidenceOf, specConfidence]
    cases hs : sortIssues (issuesOf (recentData db now dev)) with
    | nil =>
      rw [sortIssues_nil hs]
      simp [maxScore, sortIssues, List.insertionSort]
    | cons i rest =>
      have hmax : maxScore (issuesOf (recentData db now dev)) = some i.score :=
        sortIssues_head_max hs
      rw [hmax]
      ring_nf
  · simp only [confidenceOf]
    cases hs : sortIssues (issuesOf (recentData db now dev)) with
    | nil => norm_num
    | cons i rest =>
      have hscore := (issuesOf_score_bounds _ i (sortIssues_head_mem hs)).1
      have hcast : (0:ℚ) ≤ (((issuesOf (recentData db now dev)).length ⊓ 3 : Nat) : ℚ) := by
        positivity
      refine le_min_iff.mpr ⟨by norm_num, by nlinarith⟩
  · simp only [confidenceOf]
    cases hs : sortIssues (issuesOf (recentData db now dev)) with
    | nil => norm_num
    | cons i rest => exact min_le_left _ _

/-- Database with 3 healthy successful rows for device `d`. -/
def dbC6 : DB :=
  { emptyDB with speed_results :=
      [{ row0 with id := 1, timestamp_utc := 1 },
       { row0 with id := 2, timestamp_utc := 2 },
       { row0 with id := 3, timestamp_utc := 3 }] }

unseal Rat.add Rat.mul Rat.sub Rat.inv Rat.ofScientific Nat.gcd in
/-- Witness for C6 at a healthy device (no active factor: the formula
degenerates to 0.1, inside the claimed interval). -/
theorem C6_confidence_witness :
    ∃ c, diagnoseConfidence dbC6 4 "d" = some c ∧
      c = specConfidence (issuesOf (recentData dbC6 4 "d")) ∧
      (0.1 : ℚ) ≤ c ∧ c ≤ (0.95 : ℚ) :=
  C6_confidence dbC6 4 "d" (by decide)

/-- Database with 51 qualifying rows for device `d`: the oldest one
(timestamp 0) carries download 102, the other 50 carry download 0. -/
def rowC10 (i : Nat) : SpeedRow :=
  { row0 with id := i, timestamp_utc := (i : ℤ), download_mbps := if i = 0 then 102 else 0 }

def dbC10 : DB :=
  { emptyDB with speed_results := (List.range 51).map rowC10 }

unseal Rat.add Rat.mul Rat.sub Rat.inv Rat.ofScientific Nat.gcd in
set_option maxRecDepth 100000 in
/-- C10.  The diagnose endpoint works on at most the 50 most recent
qualifying rows (`LIMIT 50` after the descending sort), and its mean
download really differs from the statistic over the full 7-day window:
at `dbC10` the full-window mean is 2 while the endpoint's mean is 0. -/
theorem C10_window_truncation :
    (∀ (db : DB) (now : ℤ) (dev : String),
      (recentData db now dev).length ≤ 50 ∧
      recentData db now dev = (sortRows (qualifying db now dev)).take 50) ∧
    (qualifying dbC10 0 "d").length = 51 ∧
    fullWindowAvgDownload dbC10 0 "d" = 2 ∧
    diagAvgDownload dbC10 0 "d" = 0 ∧
    fullWindowAvgDownload dbC10 0 "d" ≠ diagAvgDownload dbC10 0 "d" := by
  refine ⟨fun db now dev => ⟨?_, rfl⟩, by decide, by decide, by decide, by decide⟩
  unfold recentData
  rw [List.length_take]
  exact min_le_left _ _
